import Mathlib

/-!
Verification of the voice-dictation daemon (`voice-daemon.py`) against its
natural-language specification.  The daemon's control logic is shallowly
embedded: strings are `List Char`, the daemon's mutable fields become a
`DaemonState` record, and each Python method that the claims mention becomes
a pure Lean function on that record.  Side effects that the claims observe
(texts emitted to the injector, listening periods started/stopped, errors
reported) are recorded in ghost fields of the state.
-/

namespace VoiceDaemon

/-- Python `str.lstrip()` with no arguments: drop leading whitespace. -/
def lstrip (s : List Char) : List Char := s.dropWhile Char.isWhitespace

/-- Python `str.strip()` with no arguments: drop leading and trailing whitespace. -/
def pyStrip (s : List Char) : List Char :=
  ((s.dropWhile Char.isWhitespace).reverse.dropWhile Char.isWhitespace).reverse

/-- The daemon's state (`VoiceDaemon.__init__`): the `is_listening` flag, the
cooperative `shutdown_flag`, and the `last_typed_text` buffer tracking what was
already emitted in word-by-word mode.  Ghost fields record the observable
side effects: `emitted` is the list of texts sent through
`signals.text_ready.emit` (oldest first), `starts` / `stops` count the
listening periods started and stopped, and `errors` records the error strings
surfaced to the user by `on_error`. -/
structure DaemonState where
  is_listening : Bool
  shutdown_flag : Bool
  last_typed_text : List Char
  emitted : List (List Char)
  starts : Nat
  stops : Nat
  errors : List (List Char)
deriving DecidableEq

/-- A freshly constructed daemon in the Idle state with no activity recorded. -/
def idle0 : DaemonState :=
  { is_listening := false, shutdown_flag := false, last_typed_text := []
    emitted := [], starts := 0, stops := 0, errors := [] }

/-- The method `start_listening`: a no-op while already listening, otherwise it
sets `is_listening`, clears `shutdown_flag` and spawns a worker (recorded by
incrementing `starts`, one per listening period). -/
def start_listening (st : DaemonState) : DaemonState :=
  if st.is_listening then st
  else { st with is_listening := true, shutdown_flag := false, starts := st.starts + 1 }

/-- The method `stop_listening`: a no-op while already idle, otherwise it
clears `is_listening`, sets `shutdown_flag` and releases the recorder
(recorded by incrementing `stops`). -/
def stop_listening (st : DaemonState) : DaemonState :=
  if st.is_listening then
    { st with is_listening := false, shutdown_flag := true, stops := st.stops + 1 }
  else st

/-- The method `toggle_listening`: dispatch on the current state. -/
def toggle_listening (st : DaemonState) : DaemonState :=
  if st.is_listening then stop_listening st else start_listening st

/-- The slot `on_error`: report the error to the user unconditionally, then
stop listening if a listening period is active. -/
def on_error (e : List Char) (st : DaemonState) : DaemonState :=
  let st' := { st with errors := st.errors ++ [e] }
  if st'.is_listening then stop_listening st' else st'

/-- The slot `on_status_changed`: the worker reports `is_listening = false`
when it exits; stop listening if the daemon still believes it is listening. -/
def on_status_changed (arg : Bool) (st : DaemonState) : DaemonState :=
  if arg = false ∧ st.is_listening then stop_listening st else st

/-- The control-thread consequence of a fatal transcription-read exception in
`_listen_loop`: the worker emits `error_occurred e`, breaks out of the loop,
and its `finally` block emits `status_changed False`; the Qt main thread then
runs `on_error` followed by `on_status_changed False`, in that order. -/
def workerFatalError (e : List Char) (st : DaemonState) : DaemonState :=
  on_status_changed false (on_error e st)

/-- The callback `_on_realtime_update` (word-by-word streaming mode): ignore
the update when shut down or not listening; when the hypothesis extends
`last_typed_text`, emit the new suffix with leading whitespace stripped,
provided it is non-empty, and only then advance the buffer to the full
hypothesis. -/
def on_realtime_update (st : DaemonState) (text : List Char) : DaemonState :=
  if st.shutdown_flag ∨ st.is_listening = false then st
  else if st.last_typed_text <+: text then
    if lstrip (text.drop st.last_typed_text.length) ≠ [] then
      { st with
          emitted := st.emitted ++ [lstrip (text.drop st.last_typed_text.length)]
          last_typed_text := text }
    else st
  else st

/-- Process a sequence of streaming partial hypotheses in order. -/
def runUpdates (st : DaemonState) (hs : List (List Char)) : DaemonState :=
  hs.foldl on_realtime_update st

/-- Ghost observer of `on_realtime_update` over a hypothesis sequence: the
raw (pre-`lstrip`) delta `text[len(last_typed_text):]` of every update that
actually emits, in order.  The branch structure mirrors the handler. -/
def rawDeltas : DaemonState → List (List Char) → List (List Char)
  | _, [] => []
  | st, h :: t =>
    if st.shutdown_flag ∨ st.is_listening = false then rawDeltas st t
    else if st.last_typed_text <+: h then
      if lstrip (h.drop st.last_typed_text.length) ≠ [] then
        h.drop st.last_typed_text.length :: rawDeltas (on_realtime_update st h) t
      else rawDeltas st t
    else rawDeltas st t

/-- The state of the worker at the start of a word-by-word listening period:
`start_listening` was just applied to the idle daemon and `_listen_loop`
has reset `last_typed_text` to the empty string. -/
def startState : DaemonState :=
  { start_listening idle0 with last_typed_text := [] }

/-- One iteration of the phrase-by-phrase branch of `_listen_loop`: the loop
runs only while listening and not shut down; the blocking `recorder.text()`
result is emitted, stripped, when it is non-empty and not whitespace-only
(`if text and text.strip()`). -/
def phraseStep (st : DaemonState) (text : List Char) : DaemonState :=
  if st.is_listening = false ∨ st.shutdown_flag then st
  else if text ≠ [] ∧ pyStrip text ≠ [] then
    { st with emitted := st.emitted ++ [pyStrip text] }
  else st

/-- The three external text-injection tools the daemon can select. -/
inductive Injector
  | ydotool
  | xdotool
  | wtype
deriving DecidableEq

/-- Outcome of one `subprocess.run(..., check=True)` invocation, supplied by
the environment: success, a `CalledProcessError`, or some other exception. -/
inductive SubprocResult
  | ok
  | calledProcessError
  | otherError
deriving DecidableEq

/-- The command line `_type_text` invokes for each injector. -/
def injectorCmd (i : Injector) (text : List Char) : List (List Char) :=
  match i with
  | .ydotool => ["ydotool".data, "type".data, "--".data, text]
  | .xdotool => ["xdotool".data, "type".data, "--".data, text]
  | .wtype => ["wtype".data, text]

/-- The observable outcome of one `_type_text` call.  The constructor
`raised` models an exception escaping to the caller; the theorems show it is
never produced. -/
inductive TypeEffect
  | noop
  | typed (cmd : List (List Char))
  | logFailed
  | logError
  | raised
deriving DecidableEq

/-- The method `_type_text`: empty text or no selected injector is a silent
no-op; otherwise the tool is invoked, a `CalledProcessError` is caught and
logged as "Failed to type text", and any other exception is caught and logged
as "Type error". -/
def type_text (inj : Option Injector) (text : List Char) (r : SubprocResult) :
    TypeEffect :=
  if text = [] ∨ inj = none then .noop
  else
    match inj with
    | none => .noop
    | some i =>
      match r with
      | .ok => .typed (injectorCmd i text)
      | .calledProcessError => .logFailed
      | .otherError => .logError

/-- The environment `_detect_text_injector` probes: the lower-cased
`XDG_SESSION_TYPE` value, `which`-availability of each candidate tool, and
whether `pgrep -x ydotoold` reports the ydotool daemon running (a `pgrep`
failure behaves like "not running"). -/
structure ToolEnv where
  session_type : List Char
  has_xdotool : Bool
  has_ydotool : Bool
  has_wtype : Bool
  ydotoold_running : Bool

/-- The method `_detect_text_injector`, with its sequential early returns
flattened: X11 prefers `xdotool`; Wayland prefers `ydotool` when `ydotoold`
is running, then `wtype`; then the generic fallbacks `xdotool` and
`ydotool`; otherwise no injector. -/
def detect_text_injector (env : ToolEnv) : Option Injector :=
  if env.session_type = "x11".data ∧ env.has_xdotool = true then some .xdotool
  else if env.session_type = "wayland".data ∧ env.has_ydotool = true
      ∧ env.ydotoold_running = true then some .ydotool
  else if env.session_type = "wayland".data ∧ env.has_wtype = true then some .wtype
  else if env.has_xdotool = true then some .xdotool
  else if env.has_ydotool = true then some .ydotool
  else none

/-- Candidate injectors as the specification describes them; the Wayland
candidate "ydotool with its daemon running" is distinguished from the
last-resort "ydotool regardless of daemon". -/
inductive Candidate
  | xdotoolC
  | ydotoolDaemonC
  | wtypeC
  | ydotoolC
deriving DecidableEq

/-- Availability probe for each candidate, per the specification. -/
def candAvailable (env : ToolEnv) : Candidate → Bool
  | .xdotoolC => env.has_xdotool
  | .ydotoolDaemonC => env.has_ydotool && env.ydotoold_running
  | .wtypeC => env.has_wtype
  | .ydotoolC => env.has_ydotool

/-- The injector identifier each candidate stands for. -/
def candTool : Candidate → Injector
  | .xdotoolC => .xdotool
  | .ydotoolDaemonC => .ydotool
  | .wtypeC => .wtype
  | .ydotoolC => .ydotool

/-- The generic fallback priority order from the specification: `xdotool`
then `ydotool`. -/
def genericFallback : List Candidate := [.xdotoolC, .ydotoolC]

/-- Modelled from the spec: the priority order appropriate to the detected
session type — X11: `xdotool`; Wayland: `ydotool`-with-daemon then `wtype`;
in every case followed by the generic fallback order. -/
def priorityOrder (session : List Char) : List Candidate :=
  if session = "x11".data then [.xdotoolC] ++ genericFallback
  else if session = "wayland".data then [.ydotoolDaemonC, .wtypeC] ++ genericFallback
  else genericFallback

/-- Modelled from the spec: the selector contract — return the first
available candidate in the session-appropriate priority order, or none. -/
def selectorSpec (env : ToolEnv) : Option Injector :=
  ((priorityOrder env.session_type).find? (candAvailable env)).map candTool

/-- Outcome of the single-instance check at the top of `main`. -/
inductive StartOutcome
  | exited (code : Nat)
  | started
deriving DecidableEq

/-- Numeric value of a list of decimal digit characters. -/
def digitsVal (ds : List Char) : Nat :=
  ds.foldl (fun a c => a * 10 + (c.toNat - 48)) 0

/-- Python `int(s)` on an already-whitespace-stripped string: an optional
sign followed by at least one decimal digit; `none` models `ValueError`. -/
def pyParseInt (s : List Char) : Option Int :=
  match pyStrip s with
  | [] => none
  | '-' :: ds =>
    if ds ≠ [] ∧ ds.all Char.isDigit then some (-(digitsVal ds : Int)) else none
  | '+' :: ds =>
    if ds ≠ [] ∧ ds.all Char.isDigit then some ((digitsVal ds : Int)) else none
  | ds =>
    if ds ≠ [] ∧ ds.all Char.isDigit then some ((digitsVal ds : Int)) else none

/-- The single-instance check in `main`: given the PID marker file content
(`none` when the file does not exist) and the environment predicate `alive`
(whether `os.kill(pid, 0)` succeeds), return the startup outcome and the
marker content afterwards.  A parse failure (`ValueError`) or a dead process
(`ProcessLookupError`) removes the stale marker and proceeds; a live PID
prints a diagnostic and exits with code 1, leaving the marker untouched. -/
def singleInstanceCheck (marker : Option (List Char)) (alive : Int → Bool) :
    StartOutcome × Option (List Char) :=
  match marker with
  | none => (.started, none)
  | some content =>
    match pyParseInt content with
    | some pid => if alive pid then (.exited 1, some content) else (.started, none)
    | none => (.started, none)

/-- C4: a streaming partial hypothesis that is not a prefix-extension of the
Partial Transcript Buffer (a revising update) leaves the handler state
entirely unchanged: no delta is emitted, nothing previously emitted is
duplicated, and the (total) handler cannot raise. -/
theorem revising_update_noop (st : DaemonState) (text : List Char)
    (h : ¬ st.last_typed_text <+: text) :
    on_realtime_update st text = st ∧
    (on_realtime_update st text).emitted = st.emitted := by
  have h1 : on_realtime_update st text = st := by
    simp [on_realtime_update, h]
  exact ⟨h1, by rw [h1]⟩

/-- Witness for C4: a buffer holding "hello world" receives the revising
hypothesis "hello there"; the state is unchanged. -/
theorem revising_update_noop_witness :
    on_realtime_update
        { startState with last_typed_text := "hello world".data } "hello there".data
      = { startState with last_typed_text := "hello world".data } :=
  (revising_update_noop _ _ (by decide)).1

/-- C10: when a hypothesis extends the buffer by whitespace only (the delta
is empty after stripping leading whitespace), nothing is emitted and the
buffer does not advance: the handler state is unchanged, so the whitespace is
re-examined on the next update. -/
theorem whitespace_extension_noop (st : DaemonState) (text : List Char)
    (_hpre : st.last_typed_text <+: text)
    (hws : lstrip (text.drop st.last_typed_text.length) = []) :
    on_realtime_update st text = st := by
  simp [on_realtime_update, hws]

/-- Witness for C10: the buffer "hi" receives "hi " (a trailing-space
extension); the state, in particular the buffer, is unchanged. -/
theorem whitespace_extension_noop_witness :
    on_realtime_update { startState with last_typed_text := "hi".data } "hi ".data
      = { startState with last_typed_text := "hi".data } :=
  whitespace_extension_noop _ _ (by decide) (by decide)

/-- C5: `toggle_listening` is an involution on the listening flag: from Idle
it reaches Listening, from Listening it reaches Idle, toggling twice restores
the original flag; `start_listening` while Listening and `stop_listening`
while Idle are exact no-ops. -/
theorem toggle_involution (st : DaemonState) :
    (st.is_listening = false → (toggle_listening st).is_listening = true) ∧
    (st.is_listening = true → (toggle_listening st).is_listening = false) ∧
    (toggle_listening (toggle_listening st)).is_listening = st.is_listening ∧
    (st.is_listening = true → start_listening st = st) ∧
    (st.is_listening = false → stop_listening st = st) := by
  cases h : st.is_listening <;>
    simp [toggle_listening, start_listening, stop_listening, h]

/-- Witness for C5: toggling the freshly started daemon makes it listen, and
stopping while idle changes nothing. -/
theorem toggle_involution_witness :
    (toggle_listening idle0).is_listening = true ∧ stop_listening idle0 = idle0 :=
  ⟨(toggle_involution idle0).1 rfl, (toggle_involution idle0).2.2.2.2 rfl⟩

/-- C2 (amended): toggle triggers are serialized, not dropped — every
processed trigger performs exactly one transition (starts + stops grows by
exactly one); an Idle trigger starts exactly one Listening period; and
`start_listening` on an already-listening daemon is a no-op, so no
Idle→Listening edge ever double-starts. -/
theorem trigger_one_transition (st : DaemonState) :
    ((toggle_listening st).starts + (toggle_listening st).stops
        = st.starts + st.stops + 1) ∧
    (st.is_listening = false →
        (toggle_listening st).starts = st.starts + 1 ∧
        (toggle_listening st).is_listening = true) ∧
    (st.is_listening = true → start_listening st = st) := by
  cases h : st.is_listening <;>
    simp [toggle_listening, start_listening, stop_listening, h] <;> omega

/-- Witness for C2: one trigger on the idle daemon performs exactly one
transition and starts listening. -/
theorem trigger_one_transition_witness :
    (toggle_listening idle0).starts + (toggle_listening idle0).stops
        = idle0.starts + idle0.stops + 1 ∧
    (toggle_listening idle0).is_listening = true :=
  ⟨(trigger_one_transition idle0).1, ((trigger_one_transition idle0).2.1 rfl).2⟩

/-- Counterexample for C2: a burst of two queued triggers (e.g. the SIGUSR1
handler's queued toggle plus the marker-file poll) arriving at the idle
daemon performs two transitions, not at most one: the second trigger is
processed, not dropped, and the daemon ends Idle again. -/
theorem trigger_burst_two_transitions :
    (toggle_listening (toggle_listening idle0)).starts
        + (toggle_listening (toggle_listening idle0)).stops = 2 ∧
    ¬ ((toggle_listening (toggle_listening idle0)).starts
        + (toggle_listening (toggle_listening idle0)).stops ≤ 1) ∧
    (toggle_listening (toggle_listening idle0)).is_listening = false := by decide

/-- C3: a fatal transcription-read error during an active Listening period
(error signal followed by the worker's final status signal) moves the daemon
to Idle exactly once (`stops` grows by exactly one and a repeated error does
not stop again), records the error report, sets the cooperative shutdown
flag, does not start any new period, and afterwards neither the streaming
callback nor the phrase loop can emit any further text. -/
theorem fatal_error_idle_once (st : DaemonState) (e : List Char)
    (h : st.is_listening = true) :
    (workerFatalError e st).is_listening = false ∧
    (workerFatalError e st).shutdown_flag = true ∧
    (workerFatalError e st).stops = st.stops + 1 ∧
    (workerFatalError e st).starts = st.starts ∧
    (workerFatalError e st).errors = st.errors ++ [e] ∧
    (∀ e2, (workerFatalError e2 (workerFatalError e st)).stops
        = (workerFatalError e st).stops) ∧
    (∀ t, on_realtime_update (workerFatalError e st) t = workerFatalError e st) ∧
    (∀ t, phraseStep (workerFatalError e st) t = workerFatalError e st) := by
  simp [workerFatalError, on_error, on_status_changed, stop_listening, h,
    on_realtime_update, phraseStep]

/-- Witness for C3: an error reported while the started daemon is listening
leaves it idle. -/
theorem fatal_error_idle_once_witness :
    (workerFatalError "boom".data (start_listening idle0)).is_listening = false :=
  (fatal_error_idle_once (start_listening idle0) "boom".data (by decide)).1

/-- C9: in phrase-by-phrase mode, an utterance whose strip is non-empty is
forwarded exactly once as the whitespace-trimmed text, and an empty or
whitespace-only utterance is not forwarded at all. -/
theorem phrase_forward_trimmed (st : DaemonState) (t : List Char)
    (hl : st.is_listening = true) (hs : st.shutdown_flag = false) :
    (pyStrip t ≠ [] →
        phraseStep st t = { st with emitted := st.emitted ++ [pyStrip t] }) ∧
    (pyStrip t = [] → phraseStep st t = st) := by
  constructor
  · intro h
    have ht : t ≠ [] := by
      intro h0
      exact h (by simp [h0, pyStrip])
    simp [phraseStep, hl, hs, ht, h]
  · intro h
    simp [phraseStep, hl, hs, h]

/-- Witness for C9: the utterance "  hi  " is forwarded as the single trimmed
delta "hi". -/
theorem phrase_forward_trimmed_witness :
    phraseStep (start_listening idle0) "  hi  ".data
      = { start_listening idle0 with
            emitted := (start_listening idle0).emitted ++ [pyStrip "  hi  ".data] } :=
  (phrase_forward_trimmed (start_listening idle0) "  hi  ".data
    (by decide) (by decide)).1 (by decide)

/-- C7: `_type_text` is total (never produces the `raised` outcome): with no
selected injector or empty text it is a silent no-op, a failing tool
invocation (`CalledProcessError`) is logged as a typing failure and dropped,
and any other invocation exception is logged and dropped. -/
theorem type_text_never_raises (inj : Option Injector) (t : List Char)
    (r : SubprocResult) :
    type_text inj t r ≠ TypeEffect.raised ∧
    (inj = none → type_text inj t r = TypeEffect.noop) ∧
    (t = [] → type_text inj t r = TypeEffect.noop) ∧
    (inj ≠ none → t ≠ [] → r = SubprocResult.calledProcessError →
        type_text inj t r = TypeEffect.logFailed) ∧
    (inj ≠ none → t ≠ [] → r = SubprocResult.otherError →
        type_text inj t r = TypeEffect.logError) := by
  cases inj <;> cases r <;> by_cases ht : t = [] <;> simp [type_text, ht]

/-- Witness for C7: a failing `xdotool` invocation on "hi" is logged, not
raised. -/
theorem type_text_never_raises_witness :
    type_text (some Injector.xdotool) "hi".data SubprocResult.calledProcessError
      = TypeEffect.logFailed :=
  (type_text_never_raises (some Injector.xdotool) "hi".data
      SubprocResult.calledProcessError).2.2.2.1 (by simp) (by decide) rfl

/-- C6: the single-instance check: a marker naming a live PID exits with
code 1 and leaves the marker content untouched; a marker naming a dead PID,
or whose content does not parse as an integer, is removed and startup
proceeds. -/
theorem single_instance_check_correct (content : List Char) (alive : Int → Bool) :
    (∀ pid, pyParseInt content = some pid → alive pid = true →
        singleInstanceCheck (some content) alive
          = (StartOutcome.exited 1, some content)) ∧
    (∀ pid, pyParseInt content = some pid → alive pid = false →
        singleInstanceCheck (some content) alive = (StartOutcome.started, none)) ∧
    (pyParseInt content = none →
        singleInstanceCheck (some content) alive = (StartOutcome.started, none)) := by
  refine ⟨?_, ?_, ?_⟩
  · intro pid hp ha
    simp [singleInstanceCheck, hp, ha]
  · intro pid hp ha
    simp [singleInstanceCheck, hp, ha]
  · intro hp
    simp [singleInstanceCheck, hp]

/-- Witness for C6: a marker reading "123" with PID 123 alive makes startup
exit with code 1, marker untouched. -/
theorem single_instance_check_witness :
    singleInstanceCheck (some "123".data) (fun _ => true)
      = (StartOutcome.exited 1, some "123".data) :=
  (single_instance_check_correct "123".data (fun _ => true)).1 123 (by decide) rfl

/-- C8: the injector selector is a deterministic function of the session-type
hint and the availability probes, and it returns exactly the first available
candidate in the session-appropriate priority order (X11: xdotool; Wayland:
ydotool-with-daemon then wtype; always followed by the generic fallback
xdotool then ydotool), or none when no probe succeeds. -/
theorem detect_injector_matches_spec (env : ToolEnv) :
    detect_text_injector env = selectorSpec env := by
  obtain ⟨s, x, y, w, d⟩ := env
  have hxw : "x11".data ≠ "wayland".data := by decide
  by_cases h1 : s = "x11".data
  · subst h1
    cases x <;> cases y <;> cases w <;> cases d <;>
      simp [detect_text_injector, selectorSpec, priorityOrder, genericFallback,
        candAvailable, candTool, hxw]
  · by_cases h2 : s = "wayland".data
    · subst h2
      cases x <;> cases y <;> cases w <;> cases d <;>
        simp [detect_text_injector, selectorSpec, priorityOrder, genericFallback,
          candAvailable, candTool, hxw.symm]
    · cases x <;> cases y <;> cases w <;> cases d <;>
        simp [detect_text_injector, selectorSpec, priorityOrder, genericFallback,
          candAvailable, candTool, h1, h2]

/-- Invariant of the streaming handler over a prefix-extension chain of
hypotheses: the raw deltas concatenate exactly to the growth of the buffer,
the final buffer is a prefix of the last hypothesis missing only whitespace,
and the emitted texts are precisely the `lstrip`s of the raw deltas. -/
theorem realtime_inv (hs : List (List Char)) :
    ∀ st : DaemonState, st.is_listening = true → st.shutdown_flag = false →
    List.Chain' (· <+: ·) (st.last_typed_text :: hs) →
    (st.last_typed_text ++ (rawDeltas st hs).flatten
        = (runUpdates st hs).last_typed_text)
    ∧ ((runUpdates st hs).last_typed_text <+: hs.getLastD st.last_typed_text)
    ∧ (∀ c ∈ (hs.getLastD st.last_typed_text).drop
          (runUpdates st hs).last_typed_text.length, c.isWhitespace = true)
    ∧ ((runUpdates st hs).emitted
        = st.emitted ++ (rawDeltas st hs).map lstrip) := by
  induction hs with
  | nil =>
    intro st h1 h2 _
    refine ⟨by simp [rawDeltas, runUpdates], ⟨[], by simp [runUpdates]⟩, ?_,
      by simp [rawDeltas, runUpdates]⟩
    intro c hc
    simp [runUpdates, List.drop_length] at hc
  | cons h t ih =>
    intro st h1 h2 h3
    rw [List.chain'_cons] at h3
    obtain ⟨hpre, hchain⟩ := h3
    obtain ⟨d0, hd0⟩ := id hpre
    have hdrop : h.drop st.last_typed_text.length = d0 := by
      rw [← hd0]; exact List.drop_left _ _
    by_cases hem : lstrip (h.drop st.last_typed_text.length) = []
    · -- whitespace-only (or empty) delta: the handler leaves the state alone
      have hstep : on_realtime_update st h = st := by
        simp [on_realtime_update, hem]
      have hrun : runUpdates st (h :: t) = runUpdates st t := by
        simp [runUpdates, List.foldl_cons, hstep]
      have hraw : rawDeltas st (h :: t) = rawDeltas st t := by
        simp [rawDeltas, hem, h1, h2, hpre]
      cases t with
      | nil =>
        rw [hrun, hraw]
        have hws : ∀ c ∈ d0, c.isWhitespace = true := by
          rw [hdrop] at hem
          exact fun c hc => List.dropWhile_eq_nil_iff.mp hem c hc
        refine ⟨by simp [rawDeltas, runUpdates], ?_, ?_,
          by simp [rawDeltas, runUpdates]⟩
        · simpa [runUpdates, List.getLastD_cons] using hpre
        · intro c hc
          apply hws
          simp only [runUpdates, List.foldl_nil, List.getLastD_cons,
            List.getLastD_nil] at hc
          rwa [hdrop] at hc
      | cons h1' t' =>
        have hchain' : List.Chain' (· <+: ·) (st.last_typed_text :: h1' :: t') := by
          rw [List.chain'_cons] at hchain ⊢
          exact ⟨hpre.trans hchain.1, hchain.2⟩
        have hih := ih st h1 h2 hchain'
        rw [hrun, hraw, List.getLastD_cons]
        exact hih
    · -- emitting step: the buffer advances to the full hypothesis
      have hstep : on_realtime_update st h
          = { st with
                emitted := st.emitted
                  ++ [lstrip (h.drop st.last_typed_text.length)]
                last_typed_text := h } := by
        simp [on_realtime_update, h1, h2, hpre, hem]
      have hrun : runUpdates st (h :: t) = runUpdates (on_realtime_update st h) t := by
        simp [runUpdates, List.foldl_cons]
      have hraw : rawDeltas st (h :: t)
          = h.drop st.last_typed_text.length
              :: rawDeltas (on_realtime_update st h) t := by
        simp [rawDeltas, hem, h1, h2, hpre]
      have hflags : (on_realtime_update st h).is_listening = true
          ∧ (on_realtime_update st h).shutdown_flag = false := by
        rw [hstep]; exact ⟨h1, h2⟩
      have hbuf : (on_realtime_update st h).last_typed_text = h := by
        rw [hstep]
      have hchain2 : List.Chain' (· <+: ·)
          ((on_realtime_update st h).last_typed_text :: t) := by
        rw [hbuf]; exact hchain
      have hih := ih (on_realtime_update st h) hflags.1 hflags.2 hchain2
      rw [hbuf] at hih
      rw [hrun, hraw, List.getLastD_cons]
      refine ⟨?_, hih.2.1, hih.2.2.1, ?_⟩
      · rw [List.flatten_cons, ← List.append_assoc, hdrop, hd0]
        exact hih.1
      · rw [hih.2.2.2, hstep]
        simp

/-- C1 (amended): over a chain of prefix-extending hypotheses, the raw
(pre-trim) deltas concatenate to the final hypothesis up to trailing
whitespace, and the deltas actually emitted to the injector are exactly the
raw deltas with their leading whitespace stripped — so the emitted
concatenation equals the final hypothesis with each delta boundary's leading
whitespace removed, not the final hypothesis itself. -/
theorem realtime_delta_concat (hs : List (List Char))
    (hchain : List.Chain' (· <+: ·) hs) :
    ∃ w, (∀ c ∈ w, c.isWhitespace = true)
      ∧ (rawDeltas startState hs).flatten ++ w = hs.getLastD []
      ∧ (runUpdates startState hs).emitted = (rawDeltas startState hs).map lstrip := by
  have hchain0 : List.Chain' (· <+: ·) (startState.last_typed_text :: hs) := by
    rw [List.chain'_cons']
    exact ⟨fun b _ => ⟨b, rfl⟩, hchain⟩
  have hinv := realtime_inv hs startState rfl rfl hchain0
  have hbuf0 : startState.last_typed_text = ([] : List Char) := rfl
  refine ⟨(hs.getLastD []).drop (runUpdates startState hs).last_typed_text.length,
    ?_, ?_, ?_⟩
  · have h3 := hinv.2.2.1
    rw [hbuf0] at h3
    exact h3
  · have h1 := hinv.1
    rw [hbuf0, List.nil_append] at h1
    have h2 := hinv.2.1
    rw [hbuf0] at h2
    obtain ⟨r, hr⟩ := h2
    rw [h1, ← hr]
    congr 1
    exact List.drop_left _ _
  · have h4 := hinv.2.2.2
    rw [h4]
    rfl

/-- Witness for C1: the chain "hello", "hello world" satisfies the amended
round-trip property. -/
theorem realtime_delta_concat_witness :
    ∃ w, (∀ c ∈ w, c.isWhitespace = true)
      ∧ (rawDeltas startState ["hello".data, "hello world".data]).flatten ++ w
          = ["hello".data, "hello world".data].getLastD []
      ∧ (runUpdates startState ["hello".data, "hello world".data]).emitted
          = (rawDeltas startState ["hello".data, "hello world".data]).map lstrip :=
  realtime_delta_concat ["hello".data, "hello world".data] (by
    rw [List.chain'_cons]
    exact ⟨⟨" world".data, by decide⟩, List.chain'_singleton _⟩)

/-- Counterexample for C1 as stated: on the spec's own example chain
"hello", "hello world", the deltas emitted to the injector are "hello" and
the post-trim "world", whose concatenation "helloworld" is not the final
hypothesis "hello world". -/
theorem realtime_concat_not_final :
    (runUpdates startState ["hello".data, "hello world".data]).emitted
        = ["hello".data, "world".data]
    ∧ ((runUpdates startState ["hello".data, "hello world".data]).emitted).flatten
        ≠ "hello world".data := by decide

end VoiceDaemon
